import Mathlib

/-
Verification of the imgpgr allocation layer (DrpLib/Allocators) against its
specification.  The C sources are shallowly embedded: machine integers are
naturals with explicit reduction modulo 2^64 where size_t arithmetic can wrap,
pointers are natural-number addresses handed out by a monotone fresh-address
supply, the process heap's possibility of failure is an explicit oracle (a
list of booleans consumed by each backing malloc/calloc/realloc call, the
empty list meaning every call succeeds), and a detected fatal usage error
(abort / failed assert / null-pointer dereference) is the `none` outcome of an
outer `Option`.
-/

namespace Imgpgr

/-- The size_t modulus: size arithmetic in the C sources is modulo 2^64. -/
def W : Nat := 2 ^ 64

/-- enum ARENA_PAGE_SIZE = 4096 (arena_allocator.h). -/
def ARENA_PAGE_SIZE : Nat := 4096

/-- enum ARENA_SIZE = ARENA_PAGE_SIZE * 128 (arena_allocator.h). -/
def ARENA_SIZE : Nat := ARENA_PAGE_SIZE * 128

/-- enum BIG_ALLOC_THRESH = ARENA_SIZE / 2 (arena_allocator.h). -/
def BIG_ALLOC_THRESH : Nat := ARENA_SIZE / 2

/-- enum ARENA_BUFFER_SIZE = ARENA_SIZE - sizeof(void*) - sizeof(size_t). -/
def ARENA_BUFFER_SIZE : Nat := ARENA_SIZE - 8 - 8

/-- sizeof(BigAllocation): two pointers, a size_t, and uintptr_t pad[5]. -/
def BIG_HEADER_SIZE : Nat := 64

/-- size_t subtraction `a - b`, wrapping modulo 2^64. -/
def sub64 (a b : Nat) : Nat := (a % W + (W - b % W)) % W

/-- memset over the byte memory: set `len` bytes starting at `lo` to `v`. -/
def mem_set (m : Nat → Nat) (lo len v : Nat) : Nat → Nat :=
  fun a => if lo ≤ a ∧ a < lo + len then v else m a

/-- memcpy over the byte memory: copy `len` bytes from `src` to `dst`. -/
def mem_copy (m : Nat → Nat) (dst src len : Nat) : Nat → Nat :=
  fun a => if dst ≤ a ∧ a < dst + len then m (src + (a - dst)) else m a

/-- ArenaAllocator_round_size_up: round up to the next multiple of 8,
with size_t wraparound (`size += 8 - remainder` is modulo 2^64). -/
def ArenaAllocator_round_size_up (size : Nat) : Nat :=
  let remainder := size % 8
  if remainder ≠ 0 then (size + (8 - remainder)) % W else size

/-- One `struct Arena` block: its heap base address and its `used` counter.
The block's `buff` begins at `base + 16` (after the `prev` and `used`
header fields); its capacity is ARENA_BUFFER_SIZE. -/
structure ArenaBlock where
  base : Nat
  used : Nat
deriving DecidableEq, Repr

/-- State of an ArenaAllocator together with the backing heap.
`blocks` is the `prev`-linked chain of arena blocks, head = current block
(empty list = `aa->arena == NULL`).  `big_next` is the sentinel's `next`
pointer of the big-allocation list, holding the user pointer of the linked
big allocation; every big-allocation header ever written has
`prev = sentinel` and `next = NULL` (Big_init stores exactly that), so the
chain reachable from the sentinel never holds more than one node.
`big_hdr` maps a big allocation's user pointer to the `size` field stored in
its header.  `mem` is byte memory, `next_addr` the fresh-address supply and
`fuel` the heap-success oracle. -/
structure ArenaSt where
  blocks : List ArenaBlock
  big_next : Option Nat
  big_hdr : Nat → Nat
  mem : Nat → Nat
  next_addr : Nat
  fuel : List Bool

/-- One backing-heap allocation call made by the arena code
(`Allocator_alloc(MALLOCATOR, n)` = malloc).  The head of `fuel` decides
success; an exhausted oracle means the call succeeds. -/
def arena_malloc (st : ArenaSt) (size : Nat) : Option Nat × ArenaSt :=
  match st.fuel with
  | [] => (some st.next_addr, { st with next_addr := st.next_addr + size + 1 })
  | b :: rest =>
    if b then
      (some st.next_addr,
        { st with next_addr := st.next_addr + size + 1, fuel := rest })
    else (none, { st with fuel := rest })

/-- Big_alloc: malloc size + sizeof(BigAllocation), link after the sentinel
(Big_init: `ba->next = NULL; ba->prev = prev; prev->next = ba`), store the
size in the header, return header+1.  The malloc result is NOT null-checked
before Big_init writes through it, so a failed backing malloc is a crash. -/
def Big_alloc (st : ArenaSt) (size : Nat) : Option (Nat × ArenaSt) :=
  match arena_malloc st ((size + BIG_HEADER_SIZE) % W) with
  | (none, _) => none
  | (some base, st') =>
    let p := base + BIG_HEADER_SIZE
    some (p, { st' with
      big_next := some p,
      big_hdr := fun q => if q = p then size else st'.big_hdr q })

/-- Big_zalloc: as Big_alloc but the storage is zero-filled (calloc). -/
def Big_zalloc (st : ArenaSt) (size : Nat) : Option (Nat × ArenaSt) :=
  match arena_malloc st ((size + BIG_HEADER_SIZE) % W) with
  | (none, _) => none
  | (some base, st') =>
    let p := base + BIG_HEADER_SIZE
    some (p, { st' with
      big_next := some p,
      big_hdr := fun q => if q = p then size else st'.big_hdr q,
      mem := mem_set st'.mem p size 0 })

/-- Big_realloc: heap-reallocate the whole big allocation (modelled as a
fresh region preserving min(header size, new size) user bytes, as realloc
does), then patch the neighbours: `prev` is always the sentinel, so
`sentinel->next := moved node`; `next` is always NULL.  The header (its
`size` field is not rewritten) moves with the data.  If the backing realloc
fails, NULL is returned and nothing is patched. -/
def Big_realloc (st : ArenaSt) (ptr old size : Nat) : Option Nat × ArenaSt :=
  match arena_malloc st ((size + BIG_HEADER_SIZE) % W) with
  | (none, st') => (none, st')
  | (some base, st') =>
    let p := base + BIG_HEADER_SIZE
    let hdr := st.big_hdr ptr
    (some p, { st' with
      big_next := some p,
      big_hdr := fun q => if q = p then hdr else st'.big_hdr q,
      mem := mem_copy st'.mem p ptr (min hdr size) })

/-- Big_free: release the standalone allocation and patch the neighbours out:
`prev` is always the sentinel and `next` always NULL, so the net effect on
the list is `sentinel->next := NULL`. -/
def Big_free (st : ArenaSt) (p size : Nat) : ArenaSt :=
  { st with big_next := none }

/-- ArenaAllocator_alloc_arena: malloc a fresh ARENA_SIZE block, link it
ahead of the current block with `used = 0`.  Returns the C error flag
(true = failed, allocator untouched). -/
def ArenaAllocator_alloc_arena (st : ArenaSt) : Bool × ArenaSt :=
  match arena_malloc st ARENA_SIZE with
  | (none, st') => (true, st')
  | (some base, st') => (false, { st' with blocks := ⟨base, 0⟩ :: st'.blocks })

/-- The bump step shared by the small-allocation paths:
`result = buff + used; used += size` on the current block. -/
def arena_bump (st : ArenaSt) (size : Nat) : Option (Option Nat × ArenaSt) :=
  match st.blocks with
  | [] => none
  | blk :: rest =>
    some (some (blk.base + 16 + blk.used),
      { st with blocks := { blk with used := (blk.used + size) % W } :: rest })

/-- The bump step of ArenaAllocator_zalloc: bump, then memset the result
region to zero. -/
def arena_bump_zero (st : ArenaSt) (size : Nat) : Option (Option Nat × ArenaSt) :=
  match st.blocks with
  | [] => none
  | blk :: rest =>
    let p := blk.base + 16 + blk.used
    some (some p,
      { st with blocks := { blk with used := (blk.used + size) % W } :: rest,
                mem := mem_set st.mem p size 0 })

/-- ArenaAllocator_alloc: round the size up; sizes above BIG_ALLOC_THRESH go
to the big-allocation list; otherwise allocate a new block if there is none
or the remaining capacity `ARENA_BUFFER_SIZE - used` (size_t arithmetic) is
insufficient, then bump. -/
def ArenaAllocator_alloc (st : ArenaSt) (size0 : Nat) :
    Option (Option Nat × ArenaSt) :=
  let size := ArenaAllocator_round_size_up size0
  if size > BIG_ALLOC_THRESH then
    match Big_alloc st size with
    | none => none
    | some (p, st') => some (some p, st')
  else
    match st.blocks with
    | [] =>
      match ArenaAllocator_alloc_arena st with
      | (true, st') => some (none, st')
      | (false, st') => arena_bump st' size
    | blk :: _ =>
      if size > sub64 ARENA_BUFFER_SIZE blk.used then
        match ArenaAllocator_alloc_arena st with
        | (true, st') => some (none, st')
        | (false, st') => arena_bump st' size
      else arena_bump st size

/-- ArenaAllocator_zalloc: as ArenaAllocator_alloc, zero-filling the result. -/
def ArenaAllocator_zalloc (st : ArenaSt) (size0 : Nat) :
    Option (Option Nat × ArenaSt) :=
  let size := ArenaAllocator_round_size_up size0
  if size > BIG_ALLOC_THRESH then
    match Big_zalloc st size with
    | none => none
    | some (p, st') => some (some p, st')
  else
    match st.blocks with
    | [] =>
      match ArenaAllocator_alloc_arena st with
      | (true, st') => some (none, st')
      | (false, st') => arena_bump_zero st' size
    | blk :: _ =>
      if size > sub64 ARENA_BUFFER_SIZE blk.used then
        match ArenaAllocator_alloc_arena st with
        | (true, st') => some (none, st')
        | (false, st') => arena_bump_zero st' size
      else arena_bump_zero st size

/-- ArenaAllocator_free: null pointer and zero size are no-ops; rounded sizes
above BIG_ALLOC_THRESH are Big_free'd; otherwise `assert(arena)` (crash when
there is no block) and reclaim `used -= size` only if `ptr + size` is the
current block's frontier. -/
def ArenaAllocator_free (st : ArenaSt) (ptr : Option Nat) (size0 : Nat) :
    Option ArenaSt :=
  match ptr with
  | none => some st
  | some p =>
    if size0 = 0 then some st
    else
      let size := ArenaAllocator_round_size_up size0
      if size > BIG_ALLOC_THRESH then some (Big_free st p size)
      else
        match st.blocks with
        | [] => none
        | blk :: rest =>
          if p + size = blk.base + 16 + blk.used then
            some { st with
              blocks := { blk with used := sub64 blk.used size } :: rest }
          else some st

/-- The fall-through tail of ArenaAllocator_realloc's small-to-small case:
bump fresh space from the current block and memcpy min(old,new) bytes. -/
def arena_realloc_finish (st : ArenaSt) (p old_size new_size : Nat) :
    Option (Option Nat × ArenaSt) :=
  match st.blocks with
  | [] => none
  | blk :: rest =>
    let q := blk.base + 16 + blk.used
    some (some q,
      { st with
        blocks := { blk with used := (blk.used + new_size) % W } :: rest,
        mem := mem_copy st.mem q p (min old_size new_size) })

/-- ArenaAllocator_realloc, following the source case for case: both sizes
zero → return ptr; old 0 → assert(!ptr) then alloc; new 0 → free and return
NULL; sizes rounded, equal rounds → return ptr; big→big → Big_realloc;
big→small → alloc, copy new bytes, Big_free; small→big → Big_alloc, copy old
bytes, free; small→small → in-place if `ptr+old` is the frontier and the new
used count fits, else fresh space (new block if needed) and copy
min(old,new). -/
def ArenaAllocator_realloc (st : ArenaSt) (ptr : Option Nat)
    (old_size0 new_size0 : Nat) : Option (Option Nat × ArenaSt) :=
  if old_size0 = 0 ∧ new_size0 = 0 then some (ptr, st)
  else if old_size0 = 0 then
    match ptr with
    | some _ => none
    | none => ArenaAllocator_alloc st new_size0
  else if new_size0 = 0 then
    match ArenaAllocator_free st ptr old_size0 with
    | none => none
    | some st' => some (none, st')
  else
    let old_size := ArenaAllocator_round_size_up old_size0
    let new_size := ArenaAllocator_round_size_up new_size0
    if old_size = new_size then some (ptr, st)
    else
      match ptr with
      | none => none
      | some p =>
        if old_size > BIG_ALLOC_THRESH then
          if new_size > BIG_ALLOC_THRESH then
            some (Big_realloc st p old_size new_size)
          else
            match ArenaAllocator_alloc st new_size with
            | none => none
            | some (none, st') => some (none, st')
            | some (some q, st') =>
              some (some q,
                Big_free { st' with mem := mem_copy st'.mem q p new_size }
                  p old_size)
        else if new_size > BIG_ALLOC_THRESH then
          match Big_alloc st new_size with
          | none => none
          | some (q, st') =>
            match ArenaAllocator_free
                { st' with mem := mem_copy st'.mem q p old_size }
                (some p) old_size with
            | none => none
            | some st'' => some (some q, st'')
        else
          match st.blocks with
          | [] => none
          | blk :: rest =>
            let new_used := (sub64 blk.used old_size + new_size) % W
            if p + old_size = blk.base + 16 + blk.used ∧
                new_used ≤ ARENA_BUFFER_SIZE then
              some (some p,
                { st with blocks := { blk with used := new_used } :: rest })
            else if sub64 ARENA_BUFFER_SIZE blk.used < new_size then
              match ArenaAllocator_alloc_arena st with
              | (true, st') => some (none, st')
              | (false, st') => arena_realloc_finish st' p old_size new_size
            else arena_realloc_finish st p old_size new_size

/-- ArenaAllocator_free_all: release every block and every big allocation,
resetting the context to its initial empty bookkeeping. -/
def ArenaAllocator_free_all (st : ArenaSt) : ArenaSt :=
  { st with blocks := [], big_next := none }

/-- struct ArenaAllocatorStats. -/
structure ArenaAllocatorStats where
  used : Nat
  capacity : Nat
  big_used : Nat
  big_count : Nat
  arena_count : Nat
deriving DecidableEq, Repr

/-- ArenaAllocator_stats: totals over the block chain and the big-allocation
chain reachable from the sentinel. -/
def ArenaAllocator_stats (st : ArenaSt) : ArenaAllocatorStats :=
  { used := (st.blocks.map ArenaBlock.used).sum
    capacity := st.blocks.length * ARENA_BUFFER_SIZE
    big_used := match st.big_next with | none => 0 | some p => st.big_hdr p
    big_count := match st.big_next with | none => 0 | some _ => 1
    arena_count := st.blocks.length }

/-- An arena allocator context as zero-initialized at construction, with the
byte memory's arbitrary initial contents given by `m`. -/
def arena_init (m : Nat → Nat) : ArenaSt :=
  { blocks := [], big_next := none, big_hdr := fun _ => 0, mem := m,
    next_addr := 1, fuel := [] }

/-- The empty arena state with all-zero initial memory. -/
def arena_empty : ArenaSt := arena_init (fun _ => 0)

/-- State of a RecordingAllocator together with its backing heap.  `ledger`
pairs `allocations[i]` (NULL slots are `none`) with `allocation_sizes[i]`
for every index below `count`; the list's length is `count`.  `capacity` is
the ledger's backing-storage capacity. -/
structure RecSt where
  ledger : List (Option Nat × Nat)
  capacity : Nat
  next_addr : Nat
  fuel : List Bool
deriving DecidableEq, Repr

/-- One backing-heap call made by the recording code (malloc / calloc /
sane_realloc), consuming the success oracle. -/
def rec_malloc (r : RecSt) (size : Nat) : Option Nat × RecSt :=
  match r.fuel with
  | [] => (some r.next_addr, { r with next_addr := r.next_addr + size + 1 })
  | b :: rest =>
    if b then
      (some r.next_addr,
        { r with next_addr := r.next_addr + size + 1, fuel := rest })
    else (none, { r with fuel := rest })

/-- recording_ensure_capacity: grow the ledger's backing storage by doubling
from an initial capacity of 32 once `count` reaches `capacity`. -/
def recording_ensure_capacity (r : RecSt) : RecSt :=
  if r.ledger.length < r.capacity then r
  else if r.capacity = 0 then { r with capacity := 32 }
  else { r with capacity := r.capacity * 2 }

/-- recording_alloc: malloc; on NULL return it unchanged; on success append
(result, size) to the ledger at index count. -/
def recording_alloc (r : RecSt) (size : Nat) : Option Nat × RecSt :=
  match rec_malloc r size with
  | (none, r') => (none, r')
  | (some p, r') =>
    let r2 := recording_ensure_capacity r'
    (some p, { r2 with ledger := r2.ledger ++ [(some p, size)] })

/-- recording_zalloc: as recording_alloc, via calloc. -/
def recording_zalloc (r : RecSt) (size : Nat) : Option Nat × RecSt :=
  match rec_malloc r size with
  | (none, r') => (none, r')
  | (some p, r') =>
    let r2 := recording_ensure_capacity r'
    (some p, { r2 with ledger := r2.ledger ++ [(some p, size)] })

/-- The reverse scan `for(size_t i = count; i--;)` looking for the slot whose
recorded pointer equals `data`: index of the LAST matching slot. -/
def rec_scan (l : List (Option Nat × Nat)) (data : Nat) : Option Nat :=
  match l with
  | [] => none
  | e :: rest =>
    match rec_scan rest data with
    | some i => some (i + 1)
    | none => if e.1 = some data then some 0 else none

/-- The trailing-slot trim loop
`while(count && allocation_sizes[count-1] == 0) count--`. -/
def rec_trim (l : List (Option Nat × Nat)) : List (Option Nat × Nat) :=
  (l.reverse.dropWhile (fun e => e.2 == 0)).reverse

/-- recording_free: NULL is a no-op; otherwise reverse-scan the ledger for
the pointer — not found is a fatal assert, found with a mismatched size is a
fatal assert, and on a match the slot is nulled (pointer NULL, size 0) and
trailing zero-size slots are trimmed from the count. -/
def recording_free (r : RecSt) (data : Option Nat) (size : Nat) :
    Option RecSt :=
  match data with
  | none => some r
  | some d =>
    match rec_scan r.ledger d with
    | none => none
    | some i =>
      if size ≠ (r.ledger.getD i (none, 0)).2 then none
      else some { r with ledger := rec_trim (r.ledger.set i (none, 0)) }

/-- recording_realloc: a non-null pointer must be found in the ledger with
the matching original size (else fatal assert) and its slot is vacated with
the same trimming; then the backing sane_realloc runs and its result —
even a NULL result from a failed realloc — is appended to the ledger as a
new (result, new_size) entry. -/
def recording_realloc (r : RecSt) (data : Option Nat)
    (orig_size new_size : Nat) : Option (Option Nat × RecSt) :=
  let vacated : Option RecSt :=
    match data with
    | none => some r
    | some d =>
      match rec_scan r.ledger d with
      | none => none
      | some i =>
        if orig_size ≠ (r.ledger.getD i (none, 0)).2 then none
        else some { r with ledger := rec_trim (r.ledger.set i (none, 0)) }
  match vacated with
  | none => none
  | some r1 =>
    match rec_malloc r1 new_size with
    | (res, r2) =>
      let r3 := recording_ensure_capacity r2
      some (res, { r3 with ledger := r3.ledger ++ [(res, new_size)] })

/-- recording_free_all: release every live slot and reset count to 0 (the
backing storage, i.e. `capacity`, is retained). -/
def recording_free_all (r : RecSt) : RecSt := { r with ledger := [] }

/-- recording_assert_all_freed: asserts that every slot below count has a
zero recorded size; a live slot is a fatal assert. -/
def recording_assert_all_freed (r : RecSt) : Option Unit :=
  if r.ledger.all (fun e => e.2 == 0) then some () else none

/-- A recording allocator context as zero-initialized at construction. -/
def rec_empty : RecSt :=
  { ledger := [], capacity := 0, next_addr := 1, fuel := [] }

/-- State of the TestingAllocator: the fault-injection target `fail_at`, the
monotone counter `nallocs` (both int64_t) and the wrapped recorder.  The
lock is held for each operation's whole duration, so single-threaded
operation semantics are unaffected by it. -/
structure TestSt where
  fail_at : Int
  nallocs : Int
  recorder : RecSt
deriving DecidableEq, Repr

/-- testing_alloc: `++nallocs`, then fault-inject — with negative fail_at
fail whenever nallocs ≥ -fail_at, otherwise fail exactly when nallocs ==
fail_at — returning NULL without touching the recorder; else delegate to
recording_alloc. -/
def testing_alloc (ta : TestSt) (size : Nat) : Option Nat × TestSt :=
  if ta.fail_at < 0 then
    if ta.nallocs + 1 ≥ -ta.fail_at then
      (none, { ta with nallocs := ta.nallocs + 1 })
    else
      match recording_alloc ta.recorder size with
      | (res, r') => (res, { ta with nallocs := ta.nallocs + 1, recorder := r' })
  else
    if ta.nallocs + 1 = ta.fail_at then
      (none, { ta with nallocs := ta.nallocs + 1 })
    else
      match recording_alloc ta.recorder size with
      | (res, r') => (res, { ta with nallocs := ta.nallocs + 1, recorder := r' })

/-- testing_zalloc: as testing_alloc over recording_zalloc. -/
def testing_zalloc (ta : TestSt) (size : Nat) : Option Nat × TestSt :=
  if ta.fail_at < 0 then
    if ta.nallocs + 1 ≥ -ta.fail_at then
      (none, { ta with nallocs := ta.nallocs + 1 })
    else
      match recording_zalloc ta.recorder size with
      | (res, r') => (res, { ta with nallocs := ta.nallocs + 1, recorder := r' })
  else
    if ta.nallocs + 1 = ta.fail_at then
      (none, { ta with nallocs := ta.nallocs + 1 })
    else
      match recording_zalloc ta.recorder size with
      | (res, r') => (res, { ta with nallocs := ta.nallocs + 1, recorder := r' })

/-- testing_realloc: growing reallocs (new > orig) count and are subject to
fault injection; shrink and no-op reallocs delegate straight through. -/
def testing_realloc (ta : TestSt) (data : Option Nat)
    (orig_size new_size : Nat) : Option (Option Nat × TestSt) :=
  if new_size > orig_size then
    if ta.fail_at < 0 then
      if ta.nallocs + 1 ≥ -ta.fail_at then
        some (none, { ta with nallocs := ta.nallocs + 1 })
      else
        match recording_realloc ta.recorder data orig_size new_size with
        | none => none
        | some (res, r') =>
          some (res, { ta with nallocs := ta.nallocs + 1, recorder := r' })
    else
      if ta.nallocs + 1 = ta.fail_at then
        some (none, { ta with nallocs := ta.nallocs + 1 })
      else
        match recording_realloc ta.recorder data orig_size new_size with
        | none => none
        | some (res, r') =>
          some (res, { ta with nallocs := ta.nallocs + 1, recorder := r' })
  else
    match recording_realloc ta.recorder data orig_size new_size with
    | none => none
    | some (res, r') => some (res, { ta with recorder := r' })

/-- testing_free: recording_free on the wrapped recorder, under the lock. -/
def testing_free (ta : TestSt) (data : Option Nat) (size : Nat) :
    Option TestSt :=
  (recording_free ta.recorder data size).map fun r' => { ta with recorder := r' }

/-- testing_free_all: recording_free_all on the wrapped recorder. -/
def testing_free_all (ta : TestSt) : TestSt :=
  { ta with recorder := recording_free_all ta.recorder }

/-- State of the plain heap-passthrough strategy: just the backing heap. -/
structure HeapSt where
  next_addr : Nat
  fuel : List Bool

/-- A malloc / calloc / sane_realloc call of the heap strategy. -/
def heap_malloc (h : HeapSt) (size : Nat) : Option Nat × HeapSt :=
  match h.fuel with
  | [] => (some h.next_addr, { h with next_addr := h.next_addr + size + 1 })
  | b :: rest =>
    if b then
      (some h.next_addr,
        { h with next_addr := h.next_addr + size + 1, fuel := rest })
    else (none, { h with fuel := rest })

/-- An Allocator handle with its context: the `type` discriminant plus the
state behind `_data`.  The constructors mirror enum AllocatorType. -/
inductive AllocCtx where
  | unset : AllocCtx
  | mal : HeapSt → AllocCtx
  | arena : ArenaSt → AllocCtx
  | nul : AllocCtx
  | recorded : RecSt → AllocCtx
  | testing : TestSt → AllocCtx

/-- Allocator_alloc dispatch: ALLOCATOR_UNSET is ALLOC_BAD (abort). -/
def Allocator_alloc : AllocCtx → Nat → Option (Option Nat × AllocCtx)
  | .unset, _ => none
  | .mal h, size =>
    match heap_malloc h size with
    | (res, h') => some (res, .mal h')
  | .arena st, size =>
    (ArenaAllocator_alloc st size).map fun x => (x.1, .arena x.2)
  | .nul, _ => some (none, .nul)
  | .recorded r, size =>
    match recording_alloc r size with
    | (res, r') => some (res, .recorded r')
  | .testing ta, size =>
    match testing_alloc ta size with
    | (res, ta') => some (res, .testing ta')

/-- Allocator_zalloc dispatch. -/
def Allocator_zalloc : AllocCtx → Nat → Option (Option Nat × AllocCtx)
  | .unset, _ => none
  | .mal h, size =>
    match heap_malloc h size with
    | (res, h') => some (res, .mal h')
  | .arena st, size =>
    (ArenaAllocator_zalloc st size).map fun x => (x.1, .arena x.2)
  | .nul, _ => some (none, .nul)
  | .recorded r, size =>
    match recording_zalloc r size with
    | (res, r') => some (res, .recorded r')
  | .testing ta, size =>
    match testing_zalloc ta size with
    | (res, ta') => some (res, .testing ta')

/-- Allocator_realloc dispatch. -/
def Allocator_realloc : AllocCtx → Option Nat → Nat → Nat →
    Option (Option Nat × AllocCtx)
  | .unset, _, _, _ => none
  | .mal h, _, _, size =>
    match heap_malloc h size with
    | (res, h') => some (res, .mal h')
  | .arena st, data, orig, size =>
    (ArenaAllocator_realloc st data orig size).map fun x => (x.1, .arena x.2)
  | .nul, _, _, _ => some (none, .nul)
  | .recorded r, data, orig, size =>
    (recording_realloc r data orig size).map fun x => (x.1, .recorded x.2)
  | .testing ta, data, orig, size =>
    (testing_realloc ta data orig size).map fun x => (x.1, .testing x.2)

/-- Allocator_free dispatch: the heap strategy's const_free never fails, the
null strategy ignores frees. -/
def Allocator_free : AllocCtx → Option Nat → Nat → Option AllocCtx
  | .unset, _, _ => none
  | .mal h, _, _ => some (.mal h)
  | .arena st, data, size => (ArenaAllocator_free st data size).map .arena
  | .nul, _, _ => some .nul
  | .recorded r, data, size => (recording_free r data size).map .recorded
  | .testing ta, data, size => (testing_free ta data size).map .testing

/-- Allocator_free_all dispatch: unset, heap and null are ALLOC_BAD. -/
def Allocator_free_all : AllocCtx → Option AllocCtx
  | .unset => none
  | .mal _ => none
  | .arena st => some (.arena (ArenaAllocator_free_all st))
  | .nul => none
  | .recorded r => some (.recorded (recording_free_all r))
  | .testing ta => some (.testing (testing_free_all ta))

/-- Allocator_good_size dispatch (non-Apple build: the heap, null, recorded
and testing strategies return the size unchanged; the arena rounds up). -/
def Allocator_good_size : AllocCtx → Nat → Option Nat
  | .unset, _ => none
  | .mal _, size => some size
  | .arena _, size => some (ArenaAllocator_round_size_up size)
  | .nul, size => some size
  | .recorded _, size => some size
  | .testing _, size => some size

/-- Allocator_supports_free_all dispatch: unset is ALLOC_BAD; heap and null
return 0; arena, recorded and testing return 1. -/
def Allocator_supports_free_all : AllocCtx → Option Bool
  | .unset => none
  | .mal _ => some false
  | .arena _ => some true
  | .nul => some false
  | .recorded _ => some true
  | .testing _ => some true

theorem W_pos : 0 < W := by decide

theorem round_size_up_eq_of_le (s : Nat) (h : s ≤ W - 8) :
    ArenaAllocator_round_size_up s = 8 * ((s + 7) / 8) := by
  unfold ArenaAllocator_round_size_up
  have h8 : s % 8 < 8 := Nat.mod_lt _ (by decide)
  have hW : (8 : Nat) ≤ W := by decide
  by_cases h0 : s % 8 = 0
  · simp only [h0, ne_eq, not_true_eq_false, if_false]
    obtain ⟨k, hk⟩ := Nat.dvd_iff_mod_eq_zero.mpr h0
    subst hk
    omega
  · simp only [ne_eq, h0, not_false_eq_true, if_true]
    have hmod : (s + (8 - s % 8)) % W = s + (8 - s % 8) := by
      apply Nat.mod_eq_of_lt
      omega
    rw [hmod]
    have := Nat.div_add_mod s 8
    omega

theorem round_size_up_ge (s : Nat) (h : s ≤ W - 8) :
    s ≤ ArenaAllocator_round_size_up s := by
  rw [round_size_up_eq_of_le s h]
  have := Nat.div_add_mod (s + 7) 8
  have : (s + 7) % 8 < 8 := Nat.mod_lt _ (by decide)
  omega

theorem round_size_up_le (s : Nat) (h : s ≤ W - 8) :
    ArenaAllocator_round_size_up s ≤ s + 7 := by
  rw [round_size_up_eq_of_le s h]
  have := Nat.div_add_mod (s + 7) 8
  have : (s + 7) % 8 < 8 := Nat.mod_lt _ (by decide)
  omega

theorem round_size_up_mono {a b : Nat} (hb : b ≤ W - 8) (h : a ≤ b) :
    ArenaAllocator_round_size_up a ≤ ArenaAllocator_round_size_up b := by
  rw [round_size_up_eq_of_le a (le_trans h hb), round_size_up_eq_of_le b hb]
  exact Nat.mul_le_mul_left 8 (Nat.div_le_div_right (by omega))

theorem round_size_up_mod8 (s : Nat) :
    ArenaAllocator_round_size_up s % 8 = 0 := by
  unfold ArenaAllocator_round_size_up
  by_cases h0 : s % 8 = 0
  · simp [h0]
  · have h8 : s % 8 < 8 := Nat.mod_lt _ (by decide)
    have hdvd : (8 : Nat) ∣ W := by decide
    simp only [ne_eq, h0, not_false_eq_true, if_true]
    rw [Nat.mod_mod_of_dvd _ hdvd]
    omega

theorem round_size_up_idem (s : Nat) :
    ArenaAllocator_round_size_up (ArenaAllocator_round_size_up s) =
      ArenaAllocator_round_size_up s := by
  have h := round_size_up_mod8 s
  unfold ArenaAllocator_round_size_up
  simp [ArenaAllocator_round_size_up] at h ⊢
  intro hc
  exact absurd h hc

theorem round_size_up_fixed {s : Nat} (h : s % 8 = 0) :
    ArenaAllocator_round_size_up s = s := by
  unfold ArenaAllocator_round_size_up
  simp [h]

theorem round_size_up_zero_iff (s : Nat) (h : s ≤ W - 8) :
    ArenaAllocator_round_size_up s = 0 ↔ s = 0 := by
  constructor
  · intro h0
    have := round_size_up_ge s h
    omega
  · intro h0
    subst h0
    rfl

theorem sub64_eq_sub {a b : Nat} (h1 : b ≤ a) (h2 : a < W) :
    sub64 a b = a - b := by
  unfold sub64
  rw [Nat.mod_eq_of_lt h2, Nat.mod_eq_of_lt (lt_of_le_of_lt h1 h2)]
  have hW : 0 < W := W_pos
  have h3 : a + (W - b) = (a - b) + W := by omega
  rw [h3, Nat.add_mod_right, Nat.mod_eq_of_lt (by omega)]

theorem thresh_le_buffer : BIG_ALLOC_THRESH ≤ ARENA_BUFFER_SIZE := by decide

theorem buffer_lt_W : ARENA_BUFFER_SIZE < W := by decide

theorem thresh_le_W8 : BIG_ALLOC_THRESH ≤ W - 8 := by decide

theorem round_le_thresh {s : Nat} (h : s ≤ BIG_ALLOC_THRESH) :
    ArenaAllocator_round_size_up s ≤ BIG_ALLOC_THRESH := by
  have h1 := round_size_up_mono (b := BIG_ALLOC_THRESH) thresh_le_W8 h
  have h2 : ArenaAllocator_round_size_up BIG_ALLOC_THRESH = BIG_ALLOC_THRESH :=
    round_size_up_fixed (by decide)
  omega

theorem alloc_small_empty (st : ArenaSt) (s : Nat)
    (hb : st.blocks = []) (hf : st.fuel = [])
    (hs : ArenaAllocator_round_size_up s ≤ BIG_ALLOC_THRESH) :
    ArenaAllocator_alloc st s =
      some (some (st.next_addr + 16),
        { st with blocks := [⟨st.next_addr, ArenaAllocator_round_size_up s⟩],
                  next_addr := st.next_addr + ARENA_SIZE + 1 }) := by
  have hlt : ArenaAllocator_round_size_up s < W :=
    lt_of_le_of_lt (le_trans hs thresh_le_buffer) buffer_lt_W
  unfold ArenaAllocator_alloc ArenaAllocator_alloc_arena arena_malloc arena_bump
  simp only [hb, hf, Nat.not_lt.mpr hs, if_neg (Nat.not_lt.mpr hs)]
  simp [Nat.mod_eq_of_lt hlt]

theorem alloc_small_fits (st : ArenaSt) (base u : Nat)
    (rest : List ArenaBlock) (s : Nat)
    (hb : st.blocks = ⟨base, u⟩ :: rest) (hu : u ≤ ARENA_BUFFER_SIZE)
    (hs : ArenaAllocator_round_size_up s ≤ ARENA_BUFFER_SIZE - u)
    (hth : ArenaAllocator_round_size_up s ≤ BIG_ALLOC_THRESH) :
    ArenaAllocator_alloc st s =
      some (some (base + 16 + u),
        { st with blocks :=
            ⟨base, u + ArenaAllocator_round_size_up s⟩ :: rest }) := by
  have hrem : sub64 ARENA_BUFFER_SIZE u = ARENA_BUFFER_SIZE - u :=
    sub64_eq_sub hu buffer_lt_W
  have hsum : u + ArenaAllocator_round_size_up s < W := by
    have := buffer_lt_W; omega
  unfold ArenaAllocator_alloc arena_bump
  simp only [hb, hrem, Nat.not_lt.mpr hth, if_neg (Nat.not_lt.mpr hth),
    if_neg (Nat.not_lt.mpr hs)]
  simp [Nat.mod_eq_of_lt hsum]

theorem alloc_small_newblock (st : ArenaSt) (base u : Nat)
    (rest : List ArenaBlock) (s : Nat)
    (hb : st.blocks = ⟨base, u⟩ :: rest) (hf : st.fuel = [])
    (hu : u ≤ ARENA_BUFFER_SIZE)
    (hth : ArenaAllocator_round_size_up s ≤ BIG_ALLOC_THRESH)
    (hs : ARENA_BUFFER_SIZE - u < ArenaAllocator_round_size_up s) :
    ArenaAllocator_alloc st s =
      some (some (st.next_addr + 16),
        { st with blocks := ⟨st.next_addr, ArenaAllocator_round_size_up s⟩
                    :: ⟨base, u⟩ :: rest,
                  next_addr := st.next_addr + ARENA_SIZE + 1 }) := by
  have hrem : sub64 ARENA_BUFFER_SIZE u = ARENA_BUFFER_SIZE - u :=
    sub64_eq_sub hu buffer_lt_W
  have hlt : ArenaAllocator_round_size_up s < W :=
    lt_of_le_of_lt (le_trans hth thresh_le_buffer) buffer_lt_W
  unfold ArenaAllocator_alloc ArenaAllocator_alloc_arena arena_malloc arena_bump
  simp only [hb, hf, hrem, Nat.not_lt.mpr hth, if_neg (Nat.not_lt.mpr hth),
    if_pos hs]
  simp [Nat.mod_eq_of_lt hlt, hb]

theorem free_small_frontier (st : ArenaSt) (base u : Nat)
    (rest : List ArenaBlock) (p s : Nat)
    (hb : st.blocks = ⟨base, u⟩ :: rest) (hs0 : s ≠ 0)
    (hth : ArenaAllocator_round_size_up s ≤ BIG_ALLOC_THRESH)
    (hle : ArenaAllocator_round_size_up s ≤ u)
    (hW : u < W)
    (hfr : p + ArenaAllocator_round_size_up s = base + 16 + u) :
    ArenaAllocator_free st (some p) s =
      some { st with blocks :=
        ⟨base, u - ArenaAllocator_round_size_up s⟩ :: rest } := by
  unfold ArenaAllocator_free
  simp only [hb, hs0, if_neg hs0, Nat.not_lt.mpr hth,
    if_neg (Nat.not_lt.mpr hth), if_pos hfr]
  rw [sub64_eq_sub hle hW]
  simp

theorem free_small_nonfrontier (st : ArenaSt) (base u : Nat)
    (rest : List ArenaBlock) (p s : Nat)
    (hb : st.blocks = ⟨base, u⟩ :: rest) (hs0 : s ≠ 0)
    (hth : ArenaAllocator_round_size_up s ≤ BIG_ALLOC_THRESH)
    (hfr : p + ArenaAllocator_round_size_up s ≠ base + 16 + u) :
    ArenaAllocator_free st (some p) s = some st := by
  unfold ArenaAllocator_free
  simp only [hb, hs0, if_neg hs0, Nat.not_lt.mpr hth,
    if_neg (Nat.not_lt.mpr hth), if_neg hfr]
  simp

/-- C1 counterexample: the code's block capacity is ARENA_SIZE = 4096·128
bytes (minus the 16-byte header), not 4096 bytes, so on an empty arena an
alloc of 4000 bytes followed by an alloc of 200 bytes does NOT force a new
block: both allocations succeed and the block count is 1, not 2. -/
theorem C1_counterexample :
    ((ArenaAllocator_alloc arena_empty 4000).bind fun a =>
        (ArenaAllocator_alloc a.2 200).map fun b =>
          (a.1, b.1, (ArenaAllocator_stats b.2).arena_count)) =
      some (some 17, some 4017, 1) ∧ (1 : Nat) ≠ 2 := by
  constructor
  · decide
  · decide

/-- C1 (amended): with the code's block capacity ARENA_SIZE (4096·128 =
524288) bytes minus the 16-byte block header (524272 usable), on an empty
arena an alloc of 262144 bytes (A) followed by an alloc of 262136 bytes (B)
makes B allocate a new block because the current block's remaining capacity
(262128) is insufficient, the block count becomes exactly 2, and the bytes
of A (the whole memory, which alloc never writes) are unchanged after B's
allocation. -/
theorem C1_block_overflow (m : Nat → Nat) :
    ∃ A st1 B st2,
      ArenaAllocator_alloc (arena_init m) 262144 = some (some A, st1) ∧
      ArenaAllocator_alloc st1 262136 = some (some B, st2) ∧
      (ArenaAllocator_stats st1).arena_count = 1 ∧
      (ArenaAllocator_stats st2).arena_count = 2 ∧
      (ArenaAllocator_stats st1).used = 262144 ∧
      ARENA_BUFFER_SIZE - 262144 < ArenaAllocator_round_size_up 262136 ∧
      st2.mem = m := by
  have e1 : ArenaAllocator_round_size_up 262144 = 262144 :=
    round_size_up_fixed (by norm_num)
  have e2 : ArenaAllocator_round_size_up 262136 = 262136 :=
    round_size_up_fixed (by norm_num)
  have h1 := alloc_small_empty (arena_init m) 262144 rfl rfl (by rw [e1]; decide)
  rw [e1] at h1
  have h2 := alloc_small_newblock
    ({ arena_init m with
        blocks := [⟨(arena_init m).next_addr, 262144⟩],
        next_addr := (arena_init m).next_addr + ARENA_SIZE + 1 })
    (arena_init m).next_addr 262144 [] 262136 rfl rfl
    (show (262144 : Nat) ≤ ARENA_BUFFER_SIZE by decide)
    (by rw [e2]; decide)
    (show ARENA_BUFFER_SIZE - 262144 < ArenaAllocator_round_size_up 262136 by
      rw [e2]; decide)
  refine ⟨_, _, _, _, h1, h2, ?_, ?_, ?_, ?_, rfl⟩
  · simp [ArenaAllocator_stats]
  · simp [ArenaAllocator_stats]
  · simp [ArenaAllocator_stats]
  · rw [e2]; decide

/-- C3 counterexample: on an empty arena, alloc 1 byte at A (used becomes
round(1) = 8); realloc(A, 1, 2) rounds both sizes to 8, returns A and leaves
`used` at 8, so `used` does NOT increase by round(k) = round(1) = 8 as the
claim states. -/
theorem C3_counterexample :
    ((ArenaAllocator_alloc arena_empty 1).bind fun a =>
        (ArenaAllocator_realloc a.2 a.1 1 2).map fun b =>
          (a.1, b.1, (ArenaAllocator_stats a.2).used,
            (ArenaAllocator_stats b.2).used)) =
      some (some 17, some 17, 8, 8) ∧
      (8 : Nat) ≠ 8 + ArenaAllocator_round_size_up 1 := by
  constructor
  · decide
  · decide

/-- C3 (amended): if A is the most recent small arena allocation of size a
(so `A + round(a)` is the current block's frontier), then `realloc(A, a,
a+k)` with `a+k` still small and the new used count still fitting the block
returns the same address A, changes the block's used counter by exactly
`round(a+k) − round(a)` (which equals round(k) only when a is 8-byte
aligned), and performs no copy: the byte memory, including anything written
past A's old end, is unmodified. -/
theorem C3_inplace_realloc (st : ArenaSt) (blk : ArenaBlock)
    (rest : List ArenaBlock) (A a k : Nat)
    (hb : st.blocks = blk :: rest)
    (hused : blk.used ≤ ARENA_BUFFER_SIZE)
    (ha : 1 ≤ a) (hsa : a ≤ BIG_ALLOC_THRESH) (hsn : a + k ≤ BIG_ALLOC_THRESH)
    (hA : blk.base + 16 ≤ A)
    (hf : A + ArenaAllocator_round_size_up a = blk.base + 16 + blk.used)
    (hfit : blk.used - ArenaAllocator_round_size_up a
              + ArenaAllocator_round_size_up (a + k) ≤ ARENA_BUFFER_SIZE) :
    ArenaAllocator_realloc st (some A) a (a + k) =
      some (some A,
        { st with blocks := { blk with
            used := blk.used - ArenaAllocator_round_size_up a
                      + ArenaAllocator_round_size_up (a + k) } :: rest }) := by
  have hra_th : ArenaAllocator_round_size_up a ≤ BIG_ALLOC_THRESH :=
    round_le_thresh hsa
  have hrn_th : ArenaAllocator_round_size_up (a + k) ≤ BIG_ALLOC_THRESH :=
    round_le_thresh hsn
  have hra_used : ArenaAllocator_round_size_up a ≤ blk.used := by omega
  have hWu : blk.used < W := lt_of_le_of_lt hused buffer_lt_W
  have ha0 : ¬ (a = 0) := by omega
  have hak0 : ¬ (a + k = 0) := by omega
  have hnand : ¬ (a = 0 ∧ a + k = 0) := by omega
  have hb1 : ¬ (ArenaAllocator_round_size_up a > BIG_ALLOC_THRESH) :=
    Nat.not_lt.mpr hra_th
  have hb2 : ¬ (ArenaAllocator_round_size_up (a + k) > BIG_ALLOC_THRESH) :=
    Nat.not_lt.mpr hrn_th
  have hsub : sub64 blk.used (ArenaAllocator_round_size_up a) =
      blk.used - ArenaAllocator_round_size_up a := sub64_eq_sub hra_used hWu
  have hmod : (blk.used - ArenaAllocator_round_size_up a
      + ArenaAllocator_round_size_up (a + k)) % W =
        blk.used - ArenaAllocator_round_size_up a
          + ArenaAllocator_round_size_up (a + k) :=
    Nat.mod_eq_of_lt (lt_of_le_of_lt hfit buffer_lt_W)
  unfold ArenaAllocator_realloc
  rw [if_neg hnand, if_neg ha0, if_neg hak0]
  by_cases he : ArenaAllocator_round_size_up a = ArenaAllocator_round_size_up (a + k)
  · rw [if_pos he]
    have h1 : blk.used - ArenaAllocator_round_size_up a
        + ArenaAllocator_round_size_up (a + k) = blk.used := by omega
    rw [h1, ← hb]
  · rw [if_neg he]
    simp only [hb, hb1, hb2, ite_false, hsub, hmod]
    rw [if_pos ⟨hf, hfit⟩]

/-- C3 witness: instantiating the in-place realloc theorem on a one-block
arena with A = 17 the most recent allocation of size 8, growing it to 16:
same address, used goes from 8 to 16, memory untouched. -/
theorem C3_witness :
    ArenaAllocator_realloc
        ⟨[⟨1, 8⟩], none, fun _ => 0, fun _ => 0, 524290, []⟩ (some 17) 8 16 =
      some (some 17,
        ⟨[⟨1, 8 - ArenaAllocator_round_size_up 8
              + ArenaAllocator_round_size_up 16⟩], none,
          fun _ => 0, fun _ => 0, 524290, []⟩) :=
  C3_inplace_realloc ⟨[⟨1, 8⟩], none, fun _ => 0, fun _ => 0, 524290, []⟩
    ⟨1, 8⟩ [] 17 8 8 rfl (by decide) (by decide) (by decide) (by decide)
    (by decide) (by decide) (by decide)

/-- C7: for every size s and every well-formed arena state with a succeeding
backing heap, alloc first rounds s up to 8-byte alignment and serves the
request from the big-allocation list — linked after the sentinel, with the
rounded size stored in the header and the block chain untouched — exactly
when the rounded size exceeds BIG_ALLOC_THRESH (half the block capacity);
otherwise the big list is untouched and the request is served by bumping
within a block, the result lying inside that block's buffer. -/
theorem C7_big_alloc_routing (st : ArenaSt) (s : Nat)
    (hfuel : st.fuel = [])
    (hwf : ∀ b ∈ st.blocks, b.used ≤ ARENA_BUFFER_SIZE) :
    ∃ p st',
      ArenaAllocator_alloc st s = some (some p, st') ∧
      (if BIG_ALLOC_THRESH < ArenaAllocator_round_size_up s then
        st'.big_next = some p ∧ st'.blocks = st.blocks ∧
          st'.big_hdr p = ArenaAllocator_round_size_up s
      else
        st'.big_next = st.big_next ∧
        ∃ base u rest,
          st'.blocks = ⟨base, u + ArenaAllocator_round_size_up s⟩ :: rest ∧
          p = base + 16 + u ∧
          u + ArenaAllocator_round_size_up s ≤ ARENA_BUFFER_SIZE) := by
  by_cases hbig : BIG_ALLOC_THRESH < ArenaAllocator_round_size_up s
  · have heq : ArenaAllocator_alloc st s =
        some (some (st.next_addr + BIG_HEADER_SIZE),
          { st with
              next_addr := st.next_addr
                + (ArenaAllocator_round_size_up s + BIG_HEADER_SIZE) % W + 1,
              big_next := some (st.next_addr + BIG_HEADER_SIZE),
              big_hdr := fun q =>
                if q = st.next_addr + BIG_HEADER_SIZE then
                  ArenaAllocator_round_size_up s
                else st.big_hdr q }) := by
      unfold ArenaAllocator_alloc Big_alloc arena_malloc
      simp [hfuel, hbig]
    refine ⟨_, _, heq, ?_⟩
    rw [if_pos hbig]
    exact ⟨rfl, rfl, by simp⟩
  · push_neg at hbig
    match hb : st.blocks with
    | [] =>
      refine ⟨st.next_addr + 16, _, alloc_small_empty st s hb hfuel hbig, ?_⟩
      rw [if_neg (Nat.not_lt.mpr hbig)]
      exact ⟨rfl, st.next_addr, 0, [], by simp, by omega,
        by have := le_trans hbig thresh_le_buffer; omega⟩
    | ⟨base, u⟩ :: rest =>
      have hu : u ≤ ARENA_BUFFER_SIZE := by
        have := hwf ⟨base, u⟩ (by rw [hb]; exact List.mem_cons_self _ _)
        simpa using this
      by_cases hfit : ArenaAllocator_round_size_up s ≤ ARENA_BUFFER_SIZE - u
      · refine ⟨base + 16 + u, _,
          alloc_small_fits st base u rest s hb hu hfit hbig, ?_⟩
        rw [if_neg (Nat.not_lt.mpr hbig)]
        exact ⟨rfl, base, u, rest, rfl, rfl, by omega⟩
      · push_neg at hfit
        refine ⟨st.next_addr + 16, _,
          alloc_small_newblock st base u rest s hb hfuel hu hbig hfit, ?_⟩
        rw [if_neg (Nat.not_lt.mpr hbig)]
        exact ⟨rfl, st.next_addr, 0, ⟨base, u⟩ :: rest, by simp, by omega,
          by have := le_trans hbig thresh_le_buffer; omega⟩

/-- C7 witness: routing at a big request (size 262145, rounded 262152 >
BIG_ALLOC_THRESH) on the empty arena. -/
theorem C7_witness :
    ∃ p st',
      ArenaAllocator_alloc arena_empty 262145 = some (some p, st') ∧
      (if BIG_ALLOC_THRESH < ArenaAllocator_round_size_up 262145 then
        st'.big_next = some p ∧ st'.blocks = arena_empty.blocks ∧
          st'.big_hdr p = ArenaAllocator_round_size_up 262145
      else
        st'.big_next = arena_empty.big_next ∧
        ∃ base u rest,
          st'.blocks = ⟨base, u + ArenaAllocator_round_size_up 262145⟩ :: rest ∧
          p = base + 16 + u ∧
          u + ArenaAllocator_round_size_up 262145 ≤ ARENA_BUFFER_SIZE) :=
  C7_big_alloc_routing arena_empty 262145 rfl (by intro b hmem; cases hmem)

/-- C6: arena LIFO reclaim.  Starting from an empty arena, after alloc A of
size a and alloc B of size b (both small, b ≥ 1), freeing B with size b
reclaims it and the next alloc of any size c ≤ b returns B's address;
freeing A instead (A is not the frontier allocation) leaves the state —
in particular the block's used counter — entirely unchanged. -/
theorem C6_lifo_reclaim (a b c : Nat)
    (hsa : a ≤ BIG_ALLOC_THRESH) (hb1 : 1 ≤ b) (hsb : b ≤ BIG_ALLOC_THRESH)
    (hc : c ≤ b) :
    ∃ A B st1 st2 st3 st4,
      ArenaAllocator_alloc arena_empty a = some (some A, st1) ∧
      ArenaAllocator_alloc st1 b = some (some B, st2) ∧
      ArenaAllocator_free st2 (some B) b = some st3 ∧
      ArenaAllocator_alloc st3 c = some (some B, st4) ∧
      ArenaAllocator_free st2 (some A) a = some st2 := by
  have hra : ArenaAllocator_round_size_up a ≤ BIG_ALLOC_THRESH :=
    round_le_thresh hsa
  have hrb : ArenaAllocator_round_size_up b ≤ BIG_ALLOC_THRESH :=
    round_le_thresh hsb
  have hrc : ArenaAllocator_round_size_up c ≤ ArenaAllocator_round_size_up b :=
    round_size_up_mono (le_trans hsb thresh_le_W8) hc
  have hrb1 : 1 ≤ ArenaAllocator_round_size_up b :=
    le_trans hb1 (round_size_up_ge b (le_trans hsb thresh_le_W8))
  have hbuf := thresh_le_buffer
  have hb0 : b ≠ 0 := by omega
  have h1 := alloc_small_empty arena_empty a rfl rfl hra
  set ra := ArenaAllocator_round_size_up a with hra_def
  set rb := ArenaAllocator_round_size_up b with hrb_def
  set rc := ArenaAllocator_round_size_up c with hrc_def
  set N1 := arena_empty.next_addr with hN1
  set st1 : ArenaSt :=
    { arena_empty with blocks := [⟨N1, ra⟩],
                       next_addr := N1 + ARENA_SIZE + 1 } with hst1
  by_cases hfit : rb ≤ ARENA_BUFFER_SIZE - ra
  · -- B fits in the same block
    have h2 := alloc_small_fits st1 N1 ra [] b rfl (by omega) hfit hrb
    set st2 : ArenaSt := { st1 with blocks := [⟨N1, ra + rb⟩] } with hst2
    have h3 := free_small_frontier st2 N1 (ra + rb) [] (N1 + 16 + ra) b rfl
      hb0 hrb (by omega) (by have := buffer_lt_W; omega) (by omega)
    rw [show ra + rb - rb = ra from by omega] at h3
    have h4 := alloc_small_fits { st2 with blocks := [⟨N1, ra⟩] } N1 ra [] c
      rfl (by omega) (by omega) (le_trans hrc hrb)
    refine ⟨N1 + 16, N1 + 16 + ra, st1, st2, _, _, h1, h2, h3, h4, ?_⟩
    rcases Nat.eq_zero_or_pos a with ha0 | ha0
    · subst ha0; simp [ArenaAllocator_free]
    · exact free_small_nonfrontier st2 N1 (ra + rb) [] (N1 + 16) a rfl
        (by omega) hra (by omega)
  · -- B forces a new block
    push_neg at hfit
    have h2 := alloc_small_newblock st1 N1 ra [] b rfl rfl (by omega) hrb hfit
    set N2 := N1 + ARENA_SIZE + 1 with hN2
    set st2 : ArenaSt :=
      { st1 with blocks := [⟨N2, rb⟩, ⟨N1, ra⟩],
                 next_addr := N2 + ARENA_SIZE + 1 } with hst2
    have h3 := free_small_frontier st2 N2 rb [⟨N1, ra⟩] (N2 + 16) b rfl
      hb0 hrb (le_refl _) (by have := buffer_lt_W; omega) (by omega)
    rw [show rb - rb = 0 from by omega] at h3
    have h4 := alloc_small_fits { st2 with blocks := [⟨N2, 0⟩, ⟨N1, ra⟩] }
      N2 0 [⟨N1, ra⟩] c rfl (by omega) (by omega) (le_trans hrc hrb)
    rw [show N2 + 16 + 0 = N2 + 16 from by omega] at h4
    refine ⟨N1 + 16, N2 + 16, st1, st2, _, _, h1, h2, h3, h4, ?_⟩
    rcases Nat.eq_zero_or_pos a with ha0 | ha0
    · subst ha0; simp [ArenaAllocator_free]
    · refine free_small_nonfrontier st2 N2 rb [⟨N1, ra⟩] (N1 + 16) a rfl
        (by omega) hra ?_
      have hth_lt : BIG_ALLOC_THRESH < ARENA_SIZE := by decide
      omega

/-- C6 witness: the LIFO reclaim scenario instantiated at a = 16, b = 24,
c = 24. -/
theorem C6_witness :
    ∃ A B st1 st2 st3 st4,
      ArenaAllocator_alloc arena_empty 16 = some (some A, st1) ∧
      ArenaAllocator_alloc st1 24 = some (some B, st2) ∧
      ArenaAllocator_free st2 (some B) 24 = some st3 ∧
      ArenaAllocator_alloc st3 24 = some (some B, st4) ∧
      ArenaAllocator_free st2 (some A) 16 = some st2 :=
  C6_lifo_reclaim 16 24 24 (by decide) (by decide) (by decide) (by decide)

/-- C5 counterexample: at size 2^64 − 1 the arena strategy's good_size wraps
to 0, which is smaller than the request, refuting `good_size(s) ≥ s` as
stated for every size. -/
theorem C5_counterexample :
    Allocator_good_size (AllocCtx.arena arena_empty) (2 ^ 64 - 1) = some 0 ∧
      ¬ (2 ^ 64 - 1 ≤ (0 : Nat)) := by
  constructor
  · show some (ArenaAllocator_round_size_up (2 ^ 64 - 1)) = some 0
    unfold ArenaAllocator_round_size_up
    norm_num [W]
  · decide

/-- C5 (amended): for every strategy other than Unset, good_size is
idempotent at every size, and `good_size(s) ≥ s` holds whenever the rounded
size does not wrap modulo 2^64, i.e. for every s ≤ 2^64 − 8 (for the
non-arena strategies good_size is the identity, so both hold at every
size). -/
theorem C5_good_size (c : AllocCtx) (s : Nat) (hc : c ≠ AllocCtx.unset) :
    ∃ g, Allocator_good_size c s = some g ∧
      Allocator_good_size c g = some g ∧
      (s ≤ 2 ^ 64 - 8 → s ≤ g) := by
  cases c with
  | unset => exact absurd rfl hc
  | mal h => exact ⟨s, rfl, rfl, fun _ => le_refl s⟩
  | nul => exact ⟨s, rfl, rfl, fun _ => le_refl s⟩
  | recorded r => exact ⟨s, rfl, rfl, fun _ => le_refl s⟩
  | testing ta => exact ⟨s, rfl, rfl, fun _ => le_refl s⟩
  | arena st =>
    refine ⟨ArenaAllocator_round_size_up s, rfl, ?_, ?_⟩
    · show some (ArenaAllocator_round_size_up (ArenaAllocator_round_size_up s)) = _
      rw [round_size_up_idem]
    · intro hs
      exact round_size_up_ge s (by simpa [W] using hs)

/-- C5 witness: instantiating the amended good_size property for the arena
strategy at size 13 (good size 16). -/
theorem C5_witness :
    ∃ g, Allocator_good_size (AllocCtx.arena arena_empty) 13 = some g ∧
      Allocator_good_size (AllocCtx.arena arena_empty) g = some g ∧
      (13 ≤ 2 ^ 64 - 8 → 13 ≤ g) :=
  C5_good_size (AllocCtx.arena arena_empty) 13 (by intro h; cases h)

/-- C9: every one of the seven dispatch operations aborts (ALLOC_BAD) on an
Unset handle; free_all on the Heap or Null strategy also aborts rather than
falling back; and supports_free_all is false for Heap and Null but true for
Arena, Recording and Testing. -/
theorem C9_dispatch_usage_errors :
    (∀ s, Allocator_alloc AllocCtx.unset s = none) ∧
    (∀ s, Allocator_zalloc AllocCtx.unset s = none) ∧
    (∀ p o s, Allocator_realloc AllocCtx.unset p o s = none) ∧
    (∀ p s, Allocator_free AllocCtx.unset p s = none) ∧
    Allocator_free_all AllocCtx.unset = none ∧
    (∀ s, Allocator_good_size AllocCtx.unset s = none) ∧
    Allocator_supports_free_all AllocCtx.unset = none ∧
    (∀ h, Allocator_free_all (AllocCtx.mal h) = none) ∧
    Allocator_free_all AllocCtx.nul = none ∧
    (∀ h, Allocator_supports_free_all (AllocCtx.mal h) = some false) ∧
    Allocator_supports_free_all AllocCtx.nul = some false ∧
    (∀ st, Allocator_supports_free_all (AllocCtx.arena st) = some true) ∧
    (∀ r, Allocator_supports_free_all (AllocCtx.recorded r) = some true) ∧
    (∀ ta, Allocator_supports_free_all (AllocCtx.testing ta) = some true) :=
  ⟨fun _ => rfl, fun _ => rfl, fun _ _ _ => rfl, fun _ _ => rfl, rfl,
    fun _ => rfl, rfl, fun _ => rfl, rfl, fun _ => rfl, rfl, fun _ => rfl,
    fun _ => rfl, fun _ => rfl⟩

/-- C10: freeing a null pointer through the dispatch returns normally with
the context unchanged for every strategy other than Unset, and the arena
strategy's free of size 0 is a no-op for any pointer. -/
theorem C10_free_null_noop :
    (∀ (c : AllocCtx) (s : Nat), c ≠ AllocCtx.unset →
      Allocator_free c none s = some c) ∧
    (∀ (st : ArenaSt) (p : Option Nat), ArenaAllocator_free st p 0 = some st) := by
  constructor
  · intro c s hc
    cases c with
    | unset => exact absurd rfl hc
    | mal h => rfl
    | arena st => rfl
    | nul => rfl
    | recorded r => rfl
    | testing ta => rfl
  · intro st p
    cases p with
    | none => rfl
    | some q => simp [ArenaAllocator_free]

/-- C10 witness: freeing NULL on the null strategy and a size-0 arena free
at pointer 42 on the empty arena both return normally and unchanged. -/
theorem C10_witness :
    Allocator_free AllocCtx.nul none 5 = some AllocCtx.nul ∧
      ArenaAllocator_free arena_empty (some 42) 0 = some arena_empty :=
  ⟨C10_free_null_noop.1 AllocCtx.nul 5 (by intro h; cases h),
    C10_free_null_noop.2 arena_empty (some 42)⟩

theorem rec_scan_eq_none {l : List (Option Nat × Nat)} {d : Nat}
    (h : ∀ e ∈ l, e.1 ≠ some d) : rec_scan l d = none := by
  induction l with
  | nil => rfl
  | cons e rest ih =>
    simp only [rec_scan, ih (fun x hx => h x (List.mem_cons_of_mem e hx))]
    simp [h e (List.mem_cons_self e rest)]

theorem rec_scan_append_last (l1 : List (Option Nat × Nat)) (d sz : Nat)
    (l2 : List (Option Nat × Nat)) (h2 : ∀ e ∈ l2, e.1 ≠ some d) :
    rec_scan (l1 ++ (some d, sz) :: l2) d = some l1.length := by
  induction l1 with
  | nil =>
    simp only [List.nil_append, rec_scan, rec_scan_eq_none h2]
    simp
  | cons e t ih =>
    simp only [List.cons_append, rec_scan, List.append_eq]
    rw [ih]
    rfl

theorem getD_append_len {α : Type} (l1 : List α) (x : α) (l2 : List α)
    (d0 : α) : (l1 ++ x :: l2).getD l1.length d0 = x := by
  induction l1 with
  | nil => rfl
  | cons a t ih =>
    simp only [List.cons_append, List.length_cons, List.getD_cons_succ]
    exact ih

theorem set_append_len {α : Type} (l1 : List α) (x y : α) (l2 : List α) :
    (l1 ++ x :: l2).set l1.length y = l1 ++ y :: l2 := by
  induction l1 with
  | nil => rfl
  | cons a t ih =>
    simp only [List.cons_append, List.length_cons, List.set_cons_succ]
    rw [ih]

/-- C8: recording-ledger misuse detection and the matching-free path.  For
a non-null pointer d: if no ledger slot records d the free is a fatal
assert; if the most recent slot recording d (no later slot records it) has
a recorded size different from the argument the free is a fatal assert; and
on a matching size that slot is nulled (pointer NULL, size 0) and trailing
zero-size slots are trimmed from the count. -/
theorem C8_recording_misuse (r : RecSt) (d size : Nat) :
    ((∀ e ∈ r.ledger, e.1 ≠ some d) →
      recording_free r (some d) size = none) ∧
    (∀ l1 sz l2, r.ledger = l1 ++ (some d, sz) :: l2 →
      (∀ e ∈ l2, e.1 ≠ some d) → size ≠ sz →
      recording_free r (some d) size = none) ∧
    (∀ l1 sz l2, r.ledger = l1 ++ (some d, sz) :: l2 →
      (∀ e ∈ l2, e.1 ≠ some d) → size = sz →
      recording_free r (some d) size =
        some { r with ledger := rec_trim (l1 ++ (none, 0) :: l2) }) := by
  refine ⟨?_, ?_, ?_⟩
  · intro h
    simp only [recording_free, rec_scan_eq_none h]
  · intro l1 sz l2 hds h2 hne
    simp only [recording_free, hds, rec_scan_append_last l1 d sz l2 h2,
      getD_append_len]
    simp [hne]
  · intro l1 sz l2 hds h2 heq
    simp only [recording_free, hds, rec_scan_append_last l1 d sz l2 h2,
      getD_append_len, set_append_len]
    simp [heq]

/-- C8 witness: on the one-slot ledger [(ptr 5, size 10)], freeing ptr 5
with the wrong size 7 is fatal, freeing untracked ptr 6 is fatal, and
freeing ptr 5 with the recorded size 10 nulls and trims the slot. -/
theorem C8_witness :
    recording_free ⟨[(some 5, 10)], 32, 7, []⟩ (some 5) 7 = none ∧
    recording_free ⟨[(some 5, 10)], 32, 7, []⟩ (some 6) 10 = none ∧
    recording_free ⟨[(some 5, 10)], 32, 7, []⟩ (some 5) 10 =
      some ⟨rec_trim [(none, 0)], 32, 7, []⟩ := by
  refine ⟨?_, ?_, ?_⟩
  · exact (C8_recording_misuse ⟨[(some 5, 10)], 32, 7, []⟩ 5 7).2.1 [] 10 []
      rfl (by intro e he; cases he) (by decide)
  · exact (C8_recording_misuse ⟨[(some 5, 10)], 32, 7, []⟩ 6 10).1
      (by intro e he; rw [List.mem_singleton] at he; subst he; decide)
  · exact (C8_recording_misuse ⟨[(some 5, 10)], 32, 7, []⟩ 5 10).2.2 [] 10 []
      rfl (by intro e he; cases he) rfl

/-- C2: testing-allocator fault injection.  From a fresh counter with
fail_at = 3, the 3rd allocation-counting call (here a growing realloc after
an alloc and a zalloc) returns the empty result and leaves the ledger
unchanged while calls 1, 2, 4 and 5 succeed; from a fresh counter with
fail_at = −3, calls 1 and 2 succeed and calls 3, 4, 5 fail, and in general
every counting call once the counter has reached 2 fails and leaves the
recorder unchanged; with fail_at = 0 no counting call ever fails by
injection: it always delegates to the wrapped recorder. -/
theorem C2_fault_injection :
    (testing_alloc ⟨3, 0, rec_empty⟩ 10 =
        (some 1, ⟨3, 1, ⟨[(some 1, 10)], 32, 12, []⟩⟩) ∧
      testing_zalloc ⟨3, 1, ⟨[(some 1, 10)], 32, 12, []⟩⟩ 20 =
        (some 12, ⟨3, 2, ⟨[(some 1, 10), (some 12, 20)], 32, 33, []⟩⟩) ∧
      testing_realloc ⟨3, 2, ⟨[(some 1, 10), (some 12, 20)], 32, 33, []⟩⟩
          none 0 5 =
        some (none, ⟨3, 3, ⟨[(some 1, 10), (some 12, 20)], 32, 33, []⟩⟩) ∧
      testing_alloc ⟨3, 3, ⟨[(some 1, 10), (some 12, 20)], 32, 33, []⟩⟩ 30 =
        (some 33,
          ⟨3, 4, ⟨[(some 1, 10), (some 12, 20), (some 33, 30)], 32, 64, []⟩⟩) ∧
      testing_zalloc
          ⟨3, 4, ⟨[(some 1, 10), (some 12, 20), (some 33, 30)], 32, 64, []⟩⟩
          40 =
        (some 64,
          ⟨3, 5, ⟨[(some 1, 10), (some 12, 20), (some 33, 30), (some 64, 40)],
            32, 105, []⟩⟩)) ∧
    (testing_alloc ⟨-3, 0, rec_empty⟩ 10 =
        (some 1, ⟨-3, 1, ⟨[(some 1, 10)], 32, 12, []⟩⟩) ∧
      testing_alloc ⟨-3, 1, ⟨[(some 1, 10)], 32, 12, []⟩⟩ 20 =
        (some 12, ⟨-3, 2, ⟨[(some 1, 10), (some 12, 20)], 32, 33, []⟩⟩) ∧
      testing_alloc ⟨-3, 2, ⟨[(some 1, 10), (some 12, 20)], 32, 33, []⟩⟩ 30 =
        (none, ⟨-3, 3, ⟨[(some 1, 10), (some 12, 20)], 32, 33, []⟩⟩) ∧
      testing_alloc ⟨-3, 3, ⟨[(some 1, 10), (some 12, 20)], 32, 33, []⟩⟩ 30 =
        (none, ⟨-3, 4, ⟨[(some 1, 10), (some 12, 20)], 32, 33, []⟩⟩) ∧
      testing_alloc ⟨-3, 4, ⟨[(some 1, 10), (some 12, 20)], 32, 33, []⟩⟩ 30 =
        (none, ⟨-3, 5, ⟨[(some 1, 10), (some 12, 20)], 32, 33, []⟩⟩)) ∧
    (∀ ta : TestSt, ta.fail_at = -3 → 2 ≤ ta.nallocs →
      (∀ s, testing_alloc ta s =
        (none, { ta with nallocs := ta.nallocs + 1 })) ∧
      (∀ s, testing_zalloc ta s =
        (none, { ta with nallocs := ta.nallocs + 1 })) ∧
      (∀ d o n, o < n → testing_realloc ta d o n =
        some (none, { ta with nallocs := ta.nallocs + 1 }))) ∧
    (∀ ta : TestSt, ta.fail_at = 0 → 0 ≤ ta.nallocs →
      (∀ s, testing_alloc ta s =
        ((recording_alloc ta.recorder s).1,
          { ta with nallocs := ta.nallocs + 1,
                    recorder := (recording_alloc ta.recorder s).2 })) ∧
      (∀ s, testing_zalloc ta s =
        ((recording_zalloc ta.recorder s).1,
          { ta with nallocs := ta.nallocs + 1,
                    recorder := (recording_zalloc ta.recorder s).2 })) ∧
      (∀ d o n, o < n → testing_realloc ta d o n =
        (recording_realloc ta.recorder d o n).map fun x =>
          (x.1, { ta with nallocs := ta.nallocs + 1, recorder := x.2 }))) := by
  refine ⟨?_, ?_, ?_, ?_⟩
  · exact ⟨by decide, by decide, by decide, by decide, by decide⟩
  · exact ⟨by decide, by decide, by decide, by decide, by decide⟩
  · intro ta hf hn
    refine ⟨?_, ?_, ?_⟩
    · intro s
      unfold testing_alloc
      rw [if_pos (show ta.fail_at < 0 by rw [hf]; decide),
        if_pos (show ta.nallocs + 1 ≥ -ta.fail_at by rw [hf]; omega)]
    · intro s
      unfold testing_zalloc
      rw [if_pos (show ta.fail_at < 0 by rw [hf]; decide),
        if_pos (show ta.nallocs + 1 ≥ -ta.fail_at by rw [hf]; omega)]
    · intro d o n ho
      unfold testing_realloc
      rw [if_pos ho,
        if_pos (show ta.fail_at < 0 by rw [hf]; decide),
        if_pos (show ta.nallocs + 1 ≥ -ta.fail_at by rw [hf]; omega)]
  · intro ta hf hn
    refine ⟨?_, ?_, ?_⟩
    · intro s
      unfold testing_alloc
      rw [if_neg (show ¬ ta.fail_at < 0 by rw [hf]; decide),
        if_neg (show ¬ (ta.nallocs + 1 = ta.fail_at) by rw [hf]; omega)]
    · intro s
      unfold testing_zalloc
      rw [if_neg (show ¬ ta.fail_at < 0 by rw [hf]; decide),
        if_neg (show ¬ (ta.nallocs + 1 = ta.fail_at) by rw [hf]; omega)]
    · intro d o n ho
      unfold testing_realloc
      rw [if_pos ho,
        if_neg (show ¬ ta.fail_at < 0 by rw [hf]; decide),
        if_neg (show ¬ (ta.nallocs + 1 = ta.fail_at) by rw [hf]; omega)]
      cases hrec : recording_realloc ta.recorder d o n with
      | none => rfl
      | some x => cases x with | mk res r' => rfl

/-- C2 witness: the fail_at = −3 single-step part applied at a concrete
state with counter 7, and the fail_at = 0 part at a fresh recorder. -/
theorem C2_witness :
    testing_alloc ⟨-3, 7, rec_empty⟩ 9 = (none, ⟨-3, 8, rec_empty⟩) ∧
    testing_alloc ⟨0, 0, rec_empty⟩ 9 =
      ((recording_alloc rec_empty 9).1,
        ⟨0, 1, (recording_alloc rec_empty 9).2⟩) :=
  ⟨((C2_fault_injection.2.2.1 ⟨-3, 7, rec_empty⟩ rfl (by decide)).1 9),
    ((C2_fault_injection.2.2.2 ⟨0, 0, rec_empty⟩ rfl (by decide)).1 9)⟩

/-- C4: when the backing realloc fails (returns NULL), recording_realloc of
a tracked pointer returns the failure result but still mutates the ledger:
the pointer's slot has been vacated and a (NULL, new_size) entry appended,
so the bookkeeping is NOT the same as before the call — and the corrupted
ledger then makes recording_assert_all_freed report a leak that is not one.
The spec's atomicity-on-failure property is violated by the code. -/
theorem C4_realloc_failure_mutates_ledger :
    recording_realloc ⟨[(some 100, 16)], 32, 200, [false]⟩ (some 100) 16 32 =
      some (none, ⟨[(none, 32)], 32, 200, []⟩) ∧
    [((none : Option Nat), (32 : Nat))] ≠ [(some 100, 16)] ∧
    recording_assert_all_freed ⟨[(none, 32)], 32, 200, []⟩ = none := by
  refine ⟨by decide, by decide, by decide⟩

end Imgpgr
